import Mathlib

/-!
Verification of `create_placeholder.py`: a script that renders an 800×400
placeholder PNG with a 5-rectangle border, a centered title and a centered
subtitle, and saves it as `hybrid-syndicate.png`.

The script is embedded shallowly.  Its only interactions with the outside
world are (a) the two `ImageFont.truetype` calls inside a `try`/bare-`except`
block, and (b) the `draw.textbbox` measurements, both of which depend on the
font files installed on the machine.  These are captured in an environment
`Env`: the outcome of the font-loading block (either success or an arbitrary
exception) and the text-measurement oracle.  Everything else in the script is
a pure computation from those, modelled definition-by-definition below with
the script's own variable names.
-/

namespace CreatePlaceholder

/-- Colors are the hex strings the script passes to the drawing calls. -/
abbrev Color := String

/-- A font handle as produced by the script's font-selection block: either a
TrueType font loaded from a path at a pixel size (`ImageFont.truetype`), or
the built-in default font (`ImageFont.load_default`). -/
inductive Font where
  | truetype (path : String) (size : Nat)
  | default
deriving DecidableEq, Repr

/-- A bounding box `(x0, y0, x1, y1)` as returned by `draw.textbbox`. -/
structure Bbox where
  x0 : Int
  y0 : Int
  x1 : Int
  y1 : Int
deriving DecidableEq, Repr

/-- One drawing operation performed on the canvas. -/
inductive DrawOp where
  | rectangle (x0 y0 x1 y1 : Int) (outline : Color)
  | text (x y : Int) (s : String) (fill : Color) (font : Font)
deriving DecidableEq, Repr

/-- The environment the script runs in: the outcome of the font-loading
`try` block (`none` if both `truetype` calls succeed, `some exc` if some
exception `exc` is raised inside the block), and the measurement oracle
behind `draw.textbbox` (anchor point, string, font ↦ bounding box). -/
structure Env where
  fontLoadExc : Option String
  textbbox : Int × Int → String → Font → Bbox

/-- Script: `width, height = 800, 400` (the width). -/
def width : Nat := 800

/-- Script: `width, height = 800, 400` (the height). -/
def height : Nat := 400

/-- Script: `border_color = '#00f0ff'`. -/
def border_color : Color := "#00f0ff"

/-- Script: `for i in range(5): draw.rectangle([i, i, width-1-i, height-1-i],
outline=border_color)`. -/
def borderOps : List DrawOp :=
  (List.range 5).map fun i =>
    .rectangle (i : Int) (i : Int) ((width : Int) - 1 - i) ((height : Int) - 1 - i) border_color

/-- Script: `text = "HYBRID SYNDICATE"`. -/
def text : String := "HYBRID SYNDICATE"

/-- Script: `subtext = "Replace with hybrid-syndicate.png"`. -/
def subtext : String := "Replace with hybrid-syndicate.png"

/-- Python `try`/bare-`except`: if the body raises any exception value the
handler's result is returned, otherwise the body's result is; in either case
a normal value of type `α` comes back, so nothing propagates. -/
def tryExcept {α : Type} (body : Except String α) (handler : α) : α :=
  match body with
  | .ok a => a
  | .error _ => handler

/-- Body of the script's `try` block: the two `ImageFont.truetype` calls.
If the environment says an exception is raised there, the body errors with
it; otherwise it yields the two TrueType fonts at sizes 60 and 24. -/
def fontLoadBody (exc : Option String) : Except String (Font × Font) :=
  match exc with
  | none =>
      .ok (.truetype "/usr/share/fonts/truetype/dejavu/DejaVuSans-Bold.ttf" 60,
           .truetype "/usr/share/fonts/truetype/dejavu/DejaVuSans.ttf" 24)
  | some ex => .error ex

/-- The script's font-selection block: `try: font = ImageFont.truetype(...);
subfont = ImageFont.truetype(...) except: font = ImageFont.load_default();
subfont = ImageFont.load_default()`. -/
def selectFonts (exc : Option String) : Font × Font :=
  tryExcept (fontLoadBody exc) (.default, .default)

/-- Script variable `font` (title font). -/
def font (e : Env) : Font := (selectFonts e.fontLoadExc).1

/-- Script variable `subfont` (subtitle font). -/
def subfont (e : Env) : Font := (selectFonts e.fontLoadExc).2

/-- Script: `bbox = draw.textbbox((0, 0), text, font=font)`. -/
def bbox (e : Env) : Bbox := e.textbbox (0, 0) text (font e)

/-- Script: `text_width = bbox[2] - bbox[0]`. -/
def text_width (e : Env) : Int := (bbox e).x1 - (bbox e).x0

/-- Script: `text_height = bbox[3] - bbox[1]`. -/
def text_height (e : Env) : Int := (bbox e).y1 - (bbox e).y0

/-- Script: `text_x = (width - text_width) // 2` (Python `//` is floor
division, `Int.fdiv`). -/
def text_x (e : Env) : Int := ((width : Int) - text_width e).fdiv 2

/-- Script: `text_y = (height - text_height) // 2 - 40`. -/
def text_y (e : Env) : Int := ((height : Int) - text_height e).fdiv 2 - 40

/-- Script: `bbox2 = draw.textbbox((0, 0), subtext, font=subfont)`. -/
def bbox2 (e : Env) : Bbox := e.textbbox (0, 0) subtext (subfont e)

/-- Script: `subtext_width = bbox2[2] - bbox2[0]`. -/
def subtext_width (e : Env) : Int := (bbox2 e).x1 - (bbox2 e).x0

/-- Script: `subtext_x = (width - subtext_width) // 2`. -/
def subtext_x (e : Env) : Int := ((width : Int) - subtext_width e).fdiv 2

/-- Script: `subtext_y = text_y + text_height + 20`. -/
def subtext_y (e : Env) : Int := text_y e + text_height e + 20

/-- The two `draw.text` calls:
`draw.text((text_x, text_y), text, fill='#00f0ff', font=font)` and
`draw.text((subtext_x, subtext_y), subtext, fill='#39ff14', font=subfont)`. -/
def textOps (e : Env) : List DrawOp :=
  [.text (text_x e) (text_y e) text "#00f0ff" (font e),
   .text (subtext_x e) (subtext_y e) subtext "#39ff14" (subfont e)]

/-- The in-memory image: mode and size from `Image.new('RGB', (width,
height), color='#0a0a0a')`, plus the drawing operations applied to it in
program order. -/
structure Canvas where
  mode : String
  w : Nat
  h : Nat
  background : Color
  ops : List DrawOp
deriving DecidableEq, Repr

/-- The observable result of one run of the script: the canvas as saved,
the path passed to `image.save`, and the line printed to stdout. -/
structure RunResult where
  canvas : Canvas
  savedPath : String
  printed : String
deriving DecidableEq, Repr

/-- One run of the whole script in environment `e`. -/
def run (e : Env) : RunResult :=
  { canvas := { mode := "RGB", w := width, h := height, background := "#0a0a0a",
                ops := borderOps ++ textOps e },
    savedPath := "hybrid-syndicate.png",
    printed := "Placeholder image created: hybrid-syndicate.png" }

/-- A filesystem, as far as the script observes it: path ↦ saved canvas. -/
abbrev FS := String → Option Canvas

/-- Modelled from the spec: `image.save(path)` (library code, not in this
repository) writes the rendered canvas to `path`, creating the file or
overwriting any existing file at that path; an existing file causes no
error. -/
def save (fs : FS) (path : String) (c : Canvas) : FS :=
  fun p => if p = path then some c else fs p

/-- The effect of one run of the script on the filesystem. -/
def runFS (e : Env) (fs : FS) : FS :=
  save fs (run e).savedPath (run e).canvas

/-- A concrete environment for witnesses: fonts load fine and every
measurement returns the box `(0, 0, 540, 43)`. -/
def env0 : Env :=
  { fontLoadExc := none, textbbox := fun _ _ _ => ⟨0, 0, 540, 43⟩ }

/-- Floor division by 2 brackets the dividend: `2 * (a.fdiv 2) ≤ a < 2 *
(a.fdiv 2) + 2`. -/
theorem fdiv_two_bounds (a : Int) : 2 * a.fdiv 2 ≤ a ∧ a < 2 * a.fdiv 2 + 2 := by
  have h := Int.fdiv_add_fmod a 2
  have h1 := Int.fmod_nonneg' a (by decide : (0 : Int) < 2)
  have h2 := Int.fmod_lt_of_pos a (by decide : (0 : Int) < 2)
  omega

/-- The title `draw.text` call is in the run's operation list. -/
theorem title_op_mem (e : Env) :
    DrawOp.text (text_x e) (text_y e) text "#00f0ff" (font e) ∈ (run e).canvas.ops :=
  List.mem_append_right _ (List.Mem.head _)

/-- The subtitle `draw.text` call is in the run's operation list. -/
theorem subtitle_op_mem (e : Env) :
    DrawOp.text (subtext_x e) (subtext_y e) subtext "#39ff14" (subfont e) ∈ (run e).canvas.ops :=
  List.mem_append_right _ (List.Mem.tail _ (List.Mem.head _))

/-- C1: for every run, the generated image is exactly 800 pixels wide and 400
pixels high, in RGB color mode, and is saved under the fixed filename
`hybrid-syndicate.png` in the working directory. -/
theorem output_format (e : Env) :
    (run e).canvas.w = 800 ∧ (run e).canvas.h = 400 ∧
    (run e).canvas.mode = "RGB" ∧ (run e).savedPath = "hybrid-syndicate.png" :=
  ⟨rfl, rfl, rfl, rfl⟩

/-- C2: for every run, the subtitle's vertical draw position equals the
title's vertical draw position plus the title's measured bounding-box height
plus exactly 20 pixels, and both texts are drawn at exactly those
positions. -/
theorem subtitle_below_title (e : Env) :
    subtext_y e = text_y e + text_height e + 20 ∧
    DrawOp.text (text_x e) (text_y e) text "#00f0ff" (font e) ∈ (run e).canvas.ops ∧
    DrawOp.text (subtext_x e) (subtext_y e) subtext "#39ff14" (subfont e) ∈ (run e).canvas.ops :=
  ⟨rfl, title_op_mem e, subtitle_op_mem e⟩

/-- C3: for every run, the title's horizontal draw position is
`(800 - text_width) // 2` — floor division, so `2 * text_x` falls within
strictly less than 2 of `800 - text_width` from below — where `text_width`
is measured with the selected title font, and the title is drawn at exactly
that x. -/
theorem title_centered (e : Env) :
    text_x e = ((width : Int) - text_width e).fdiv 2 ∧
    2 * text_x e ≤ 800 - text_width e ∧ 800 - text_width e < 2 * text_x e + 2 ∧
    DrawOp.text (text_x e) (text_y e) text "#00f0ff" (font e) ∈ (run e).canvas.ops := by
  have hx : text_x e = ((width : Int) - text_width e).fdiv 2 := rfl
  have hw : (width : Int) = 800 := rfl
  have hb := fdiv_two_bounds ((width : Int) - text_width e)
  exact ⟨hx, by omega, by omega, title_op_mem e⟩

/-- C4: if the font-loading block fails with any exception, both the title
font and the subtitle font become the built-in default font, and the run
still completes, producing an image of the same dimensions. -/
theorem fallback_on_font_failure (e : Env) (exc : String)
    (h : e.fontLoadExc = some exc) :
    font e = Font.default ∧ subfont e = Font.default ∧
    (run e).canvas.w = 800 ∧ (run e).canvas.h = 400 := by
  refine ⟨?_, ?_, rfl, rfl⟩
  · simp [font, selectFonts, fontLoadBody, tryExcept, h]
  · simp [subfont, selectFonts, fontLoadBody, tryExcept, h]

/-- A concrete environment in which font loading raises an exception. -/
def envFail : Env :=
  { fontLoadExc := some "OSError", textbbox := fun _ _ _ => ⟨0, 0, 200, 30⟩ }

/-- Witness for C4 at the concrete environment `envFail`. -/
theorem fallback_on_font_failure_witness :
    envFail.fontLoadExc = some "OSError" ∧
    (font envFail = Font.default ∧ subfont envFail = Font.default ∧
     (run envFail).canvas.w = 800 ∧ (run envFail).canvas.h = 400) :=
  ⟨rfl, fallback_on_font_failure envFail "OSError" rfl⟩

/-- C5: for every run, the first five drawing operations are five concentric
rectangles at insets 0, 1, 2, 3, 4 pixels from each canvas edge, all
outlined in the same fixed color. -/
theorem border_five_rectangles (e : Env) :
    (run e).canvas.ops.take 5 =
      [.rectangle 0 0 799 399 border_color,
       .rectangle 1 1 798 398 border_color,
       .rectangle 2 2 797 397 border_color,
       .rectangle 3 3 796 396 border_color,
       .rectangle 4 4 795 395 border_color] := rfl

/-- C6: in every run, whichever fonts are selected, the title and the
subtitle are each drawn horizontally centered on the 800-pixel-wide canvas
using their own measured widths, and the subtitle sits below the title by
the title's height plus a fixed 20-pixel gap. -/
theorem centering_invariant (e : Env) :
    DrawOp.text (((width : Int) - text_width e).fdiv 2) (text_y e) text "#00f0ff" (font e)
      ∈ (run e).canvas.ops ∧
    DrawOp.text (((width : Int) - subtext_width e).fdiv 2) (text_y e + text_height e + 20)
      subtext "#39ff14" (subfont e) ∈ (run e).canvas.ops :=
  ⟨title_op_mem e, subtitle_op_mem e⟩

/-- C7: the program is deterministic modulo font availability — two runs in
which font loading resolves to the same fonts and text measurement returns
the same bounding boxes produce identical results (same canvas contents,
saved path and printed line). -/
theorem deterministic (e1 e2 : Env)
    (hf : selectFonts e1.fontLoadExc = selectFonts e2.fontLoadExc)
    (hb1 : e1.textbbox (0, 0) text (font e1) = e2.textbbox (0, 0) text (font e2))
    (hb2 : e1.textbbox (0, 0) subtext (subfont e1) = e2.textbbox (0, 0) subtext (subfont e2)) :
    run e1 = run e2 := by
  have hfont : font e1 = font e2 := congrArg Prod.fst hf
  have hsubfont : subfont e1 = subfont e2 := congrArg Prod.snd hf
  have hbb : bbox e1 = bbox e2 := hb1
  have hbb2 : bbox2 e1 = bbox2 e2 := hb2
  simp only [run, textOps, text_x, text_y, subtext_x, subtext_y, text_width, text_height,
    subtext_width, hbb, hbb2, hfont, hsubfont]

/-- Witness for C7 at the concrete environment `env0` on both sides. -/
theorem deterministic_witness :
    selectFonts env0.fontLoadExc = selectFonts env0.fontLoadExc ∧
    env0.textbbox (0, 0) text (font env0) = env0.textbbox (0, 0) text (font env0) ∧
    env0.textbbox (0, 0) subtext (subfont env0) = env0.textbbox (0, 0) subtext (subfont env0) ∧
    run env0 = run env0 :=
  ⟨rfl, rfl, rfl, deterministic env0 env0 rfl rfl rfl⟩

/-- C8: a run writes exactly one file, `hybrid-syndicate.png`: the
filesystem is unchanged at every other path, even after a second run, and
the second run overwrites the file with its own canvas without failing. -/
theorem single_file_write (e1 e2 : Env) (fs : FS) (p : String)
    (hp : p ≠ "hybrid-syndicate.png") :
    (run e1).savedPath = "hybrid-syndicate.png" ∧
    runFS e1 fs p = fs p ∧
    runFS e2 (runFS e1 fs) p = fs p ∧
    runFS e2 (runFS e1 fs) "hybrid-syndicate.png" = some (run e2).canvas := by
  refine ⟨rfl, ?_, ?_, ?_⟩
  · simp [runFS, save, run, hp]
  · simp [runFS, save, run, hp]
  · simp [runFS, save, run]

/-- Witness for C8: both runs in `env0`, starting from the empty filesystem,
checked at the unrelated path `other.txt`. -/
theorem single_file_write_witness :
    ("other.txt" : String) ≠ "hybrid-syndicate.png" ∧
    ((run env0).savedPath = "hybrid-syndicate.png" ∧
     runFS env0 (fun _ => none) "other.txt" = (fun _ => (none : Option Canvas)) "other.txt" ∧
     runFS env0 (runFS env0 (fun _ => none)) "other.txt"
       = (fun _ => (none : Option Canvas)) "other.txt" ∧
     runFS env0 (runFS env0 (fun _ => none)) "hybrid-syndicate.png" = some (run env0).canvas) :=
  ⟨by decide, single_file_write env0 env0 (fun _ => none) "other.txt" (by decide)⟩

/-- C9: the bare `except:` catches every exception: whatever exception value
the two `truetype` calls raise, the block returns normally with the fallback
font for both slots, and the run goes on to save the image. -/
theorem bare_except_swallows_all (exc : String) (mb : Int × Int → String → Font → Bbox) :
    selectFonts (some exc) = (Font.default, Font.default) ∧
    font { fontLoadExc := some exc, textbbox := mb } = Font.default ∧
    subfont { fontLoadExc := some exc, textbbox := mb } = Font.default ∧
    (run { fontLoadExc := some exc, textbbox := mb }).savedPath = "hybrid-syndicate.png" :=
  ⟨rfl, rfl, rfl, rfl⟩

/-- C10: the centering arithmetic has no clamping: a measured title width
above 800 makes `text_x` negative, a title height of 442 or more pushes
`subtext_y` past the 400-pixel canvas height, and the draw calls use these
coordinates unguarded. -/
theorem no_clamping (e : Env) :
    (800 < text_width e → text_x e < 0) ∧
    (442 ≤ text_height e → 400 < subtext_y e) ∧
    DrawOp.text (text_x e) (text_y e) text "#00f0ff" (font e) ∈ (run e).canvas.ops ∧
    DrawOp.text (subtext_x e) (subtext_y e) subtext "#39ff14" (subfont e) ∈ (run e).canvas.ops := by
  have hw : (width : Int) = 800 := rfl
  have hh : (height : Int) = 400 := rfl
  refine ⟨?_, ?_, title_op_mem e, subtitle_op_mem e⟩
  · intro h
    have hx : text_x e = ((width : Int) - text_width e).fdiv 2 := rfl
    have hb := fdiv_two_bounds ((width : Int) - text_width e)
    omega
  · intro h
    have hy : text_y e = ((height : Int) - text_height e).fdiv 2 - 40 := rfl
    have hs : subtext_y e = text_y e + text_height e + 20 := rfl
    have hb := fdiv_two_bounds ((height : Int) - text_height e)
    omega

/-- A concrete environment whose measurements make the title oversized: every
bounding box is `(0, 0, 1000, 500)`. -/
def envWide : Env :=
  { fontLoadExc := none, textbbox := fun _ _ _ => ⟨0, 0, 1000, 500⟩ }

/-- Witness for C10 at the concrete environment `envWide`: a 1000-pixel-wide,
500-pixel-tall title puts `text_x` below 0 and `subtext_y` above 400. -/
theorem no_clamping_witness :
    (800 < text_width envWide ∧ 442 ≤ text_height envWide) ∧
    (text_x envWide < 0 ∧ 400 < subtext_y envWide) :=
  ⟨⟨by decide, by decide⟩,
   (no_clamping envWide).1 (by decide), (no_clamping envWide).2.1 (by decide)⟩

end CreatePlaceholder
